import Mathlib

/-!
Formal model of the save-finance repository: the Solend action builder
(`src/solend-sdk/src/core/actions.ts`), the switchboard oracle reader
(`src/unnamed/part_001`) and the liquidator main loop (`src/unnamed/part_000`),
shallowly embedded in Lean 4.  Account addresses are modelled as naturals,
`BN`/`BigNumber` arithmetic as exact `Nat`/`ℚ` arithmetic, and the
asynchronous chain reads (`connection.getAccountInfo`, `parseReserve`, ...)
as explicit lookup functions packaged in a `Chain` record.
-/

namespace SaveFinance

/-- On-chain addresses (base58 strings / `PublicKey`s in the source) are
modelled as naturals with decidable equality. -/
abbrev Address := Nat

/-- Modelled from the spec: the constants module (`core/constants.ts`) is not in
`src/`; §6 states the amount-sentinel constant is the maximum representable
unsigned 64-bit integer (`U64_MAX`). -/
def U64_MAX : Nat := 2 ^ 64 - 1

/-- Modelled from the spec: `WAD`, the 18-decimal fixed-point scaling factor
(constants module not in `src/`). -/
def WAD : Nat := 10 ^ 18

/-- Constant `SOL_PADDING_FOR_INTEREST = "1000000"` (actions.ts line 68). -/
def SOL_PADDING_FOR_INTEREST : Nat := 1000000

/-- The network's native wrapped mint (`NATIVE_MINT` from spl-token, an
external constant): a fixed distinguished address. -/
def NATIVE_MINT : Address := 1

/-- Modelled from the spec: the `POSITION_LIMIT` constant lives in the
constants module, which is not in `src/`; §6 only says it is a fixed
constant, so it is kept as an explicit parameter of the model. -/
structure Config where
  positionLimit : Nat
deriving Repr, DecidableEq

/-- Type `ActionType` (actions.ts lines 119-129). -/
inductive ActionType where
  | deposit
  | borrow
  | withdraw
  | repay
  | mint
  | redeem
  | depositCollateral
  | withdrawCollateral
  | forgive
  | liquidate
deriving Repr, DecidableEq

/-- Type `SupportType` (actions.ts lines 70-79). -/
inductive SupportType where
  | wrap
  | unwrap
  | refreshReserves
  | refreshObligation
  | createObligation
  | cAta
  | ata
  | wrapUnwrapLiquidate
  | wsol
deriving Repr, DecidableEq

/-- Table `ACTION_SUPPORT_REQUIREMENTS` (actions.ts lines 81-108). -/
def ACTION_SUPPORT_REQUIREMENTS : ActionType → List SupportType
  | .deposit => [.wsol, .wrap, .createObligation, .cAta]
  | .borrow => [.wsol, .ata, .refreshReserves, .refreshObligation, .unwrap]
  | .withdraw =>
      [.wsol, .ata, .cAta, .refreshReserves, .refreshObligation, .unwrap]
  | .repay => [.wsol, .wrap]
  | .mint => [.wsol, .wrap, .cAta]
  | .redeem => [.wsol, .ata, .refreshReserves, .refreshObligation, .unwrap]
  | .depositCollateral => [.createObligation]
  | .withdrawCollateral => [.cAta, .refreshReserves, .refreshObligation]
  | .forgive => []
  | .liquidate =>
      [.wsol, .ata, .cAta, .wrapUnwrapLiquidate, .refreshReserves,
       .refreshObligation]

/-- The fields of `ReserveType` (core/types.ts, external to src) that
actions.ts reads. -/
structure ReserveType where
  address : Address
  mintAddress : Address
  cTokenMint : Address
  liquidityAddress : Address
  cTokenLiquidityAddress : Address
  liquidityFeeReceiverAddress : Address
  feeReceiverAddress : Address
  pythOracle : Address
  switchboardOracle : Address
  extraOracle : Option Address
deriving Repr, DecidableEq

/-- The fields of `PoolType` that actions.ts reads. -/
structure PoolType where
  address : Address
  authorityAddress : Address
  owner : Address
  reserves : List ReserveType
deriving Repr, DecidableEq

/-- One entry of `obligation.borrows` as decoded by the external
`parseObligation` (state/obligation.ts): reserve reference, borrowed amount in
WAD and the cumulative-borrow-rate snapshot. -/
structure ObligationBorrow where
  borrowReserve : Address
  borrowedAmountWads : Nat
  cumulativeBorrowRateWads : Nat
deriving Repr, DecidableEq

/-- One entry of `obligation.deposits`. -/
structure ObligationDeposit where
  depositReserve : Address
  depositedAmount : Nat
deriving Repr, DecidableEq

/-- The decoded obligation record (external State Decoder collaborator). -/
structure Obligation where
  owner : Address
  deposits : List ObligationDeposit
  borrows : List ObligationBorrow
deriving Repr, DecidableEq

/-- Data of a parsed reserve account that `updateWSOLAccount` reads
(`parsedData.liquidity.cumulativeBorrowRateWads`). -/
structure ParsedReserve where
  cumulativeBorrowRateWads : Nat
deriving Repr, DecidableEq

/-- Instructions as produced by the external Instruction Factory.  Per spec §6
each factory function returns an opaque wire-encoded instruction; the model
keeps the constructor identity plus the arguments the claims inspect. -/
inductive Ix where
  /-- `createAssociatedTokenAccountInstruction(payer, ata, owner, mint)`. -/
  | createAta (payer ata owner mint : Address)
  /-- `createAssociatedTokenAccountIdempotentInstruction`. -/
  | createAtaIdempotent (payer ata owner mint : Address)
  /-- `SystemProgram.createAccountWithSeed`. -/
  | createAccountWithSeed (fromPubkey newAccountPubkey basePubkey : Address)
      (lamports space : Nat)
  /-- `initObligationInstruction(obligation, pool, owner)`. -/
  | initObligation (obligation pool owner : Address)
  /-- `refreshReserveInstruction`. -/
  | refreshReserve (reserve pythOracle switchboardOracle : Address)
      (extraOracle : Option Address)
  /-- `refreshObligationInstruction`. -/
  | refreshObligation (obligation : Address)
      (depositReserves borrowReserves : List Address)
  /-- `depositMaxReserveLiquidityAndObligationCollateralInstruction`. -/
  | depositMaxReserveLiquidityAndObligationCollateral
      (userAta userCAta reserve obligation : Address)
  /-- `depositReserveLiquidityAndObligationCollateralInstruction(amount, ...)`. -/
  | depositReserveLiquidityAndObligationCollateral (amount : Nat)
      (userAta userCAta reserve obligation : Address)
  /-- `withdrawObligationCollateralAndRedeemReserveLiquidity(new BN(U64_MAX), ...)`. -/
  | withdrawObligationCollateralAndRedeemReserveLiquidity (amount : Nat)
      (userCAta reserve obligation : Address)
  /-- `withdrawExact(amount, ...)`. -/
  | withdrawExact (amount : Nat) (userCAta reserve obligation : Address)
  /-- `repayMaxObligationLiquidityInstruction`. -/
  | repayMaxObligationLiquidity (userAta reserve obligation : Address)
  /-- `repayObligationLiquidityInstruction(amount, ...)`. -/
  | repayObligationLiquidity (amount : Nat) (userAta reserve obligation : Address)
  /-- `borrowObligationLiquidityInstruction(amount, ...)`. -/
  | borrowObligationLiquidity (amount : Nat) (reserve obligation : Address)
      (hostAta : Option Address)
  /-- `forgiveDebtInstruction(obligation, reserve, pool, owner, amount)`. -/
  | forgiveDebt (amount : Nat) (obligation reserve : Address)
  /-- `liquidateObligationAndRedeemReserveCollateral(amount, ...)`. -/
  | liquidateObligationAndRedeemReserveCollateral (amount : Nat)
      (repayReserve withdrawReserve obligation : Address)
  /-- `depositReserveLiquidityInstruction(amount, ...)`. -/
  | depositReserveLiquidity (amount : Nat) (userAta userCAta reserve : Address)
  /-- `redeemReserveCollateralInstruction(amount, ...)`. -/
  | redeemReserveCollateral (amount : Nat) (userCAta userAta reserve : Address)
  /-- `depositObligationCollateralInstruction(amount, ...)`. -/
  | depositObligationCollateral (amount : Nat) (userCAta reserve obligation : Address)
  /-- `withdrawObligationCollateralInstruction(amount, ...)`. -/
  | withdrawObligationCollateral (amount : Nat) (userCAta reserve obligation : Address)
  /-- `SystemProgram.transfer({fromPubkey, toPubkey, lamports})`. -/
  | transferLamports (fromPubkey toPubkey : Address) (lamports : Nat)
  /-- `syncNative(account)`. -/
  | syncNativeIx (account : Address)
  /-- `createCloseAccountInstruction(account, dest, owner)`. -/
  | closeAccount (account dest owner : Address)
  /-- `createDepositAndMintWrapperTokensInstruction`. -/
  | depositAndMintWrapper (owner wrappedAta mint2022 : Address) (amount : Nat)
  /-- `createWithdrawAndBurnWrapperTokensInstruction`. -/
  | withdrawAndBurnWrapper (owner wrappedAta mint2022 : Address) (amount : Nat)
deriving Repr, DecidableEq

/-- The chain state visible through `connection`: account presence, the parse
result of a reserve account, the obligation decoded at an address, rent
figures, and the associated-token-address derivation
(`getAssociatedTokenAddress(mint, owner)`, an external pure derivation). -/
structure Chain where
  /-- `connection.getAccountInfo(a) !== null`. -/
  accountExists : Address → Bool
  /-- `parseReserve` applied to the account at `a`: `none` when the account is
  missing, `some none` when the bytes do not parse, `some (some d)` on
  success. -/
  reserveAccount : Address → Option (Option ParsedReserve)
  /-- `parseObligation` applied to the account at `a` (used by `initialize`). -/
  obligationAt : Address → Option Obligation
  /-- `getMinimumBalanceForRentExemptAccount(connection)`. -/
  rentExemptTokenAccount : Nat
  /-- `connection.getMinimumBalanceForRentExemption(OBLIGATION_SIZE)`. -/
  rentExemptObligation : Nat
  /-- `getAssociatedTokenAddress(mint, owner, true)`. -/
  ataOf : Address → Address → Address

/-- The state of a `SolendActionCore` object: the constructor fields
(actions.ts lines 182-230) plus the instruction buckets the methods push
into (`setupIxs`, `preIxs`, `lendingIxs`, `postIxs`, `cleanupIxs`,
`postTxnIxs`). -/
structure SolendActionCore where
  programId : Address
  reserve : ReserveType
  pool : PoolType
  publicKey : Address
  obligationAddress : Address
  obligationAccountInfo : Option Obligation
  userTokenAccountAddress : Address
  userCollateralAccountAddress : Address
  seed : Nat
  positions : Nat
  amount : Nat
  hostAta : Option Address
  lookupTableAccount : Option Unit
  depositReserves : List Address
  borrowReserves : List Address
  userRepayTokenAccountAddress : Option Address
  userRepayCollateralAccountAddress : Option Address
  token2022Mint : Option Address
  wrappedAta : Option Address
  setupIxs : List Ix
  preIxs : List Ix
  lendingIxs : List Ix
  postIxs : List Ix
  cleanupIxs : List Ix
  postTxnIxs : List Ix
deriving Repr, DecidableEq

/-- The error taxonomy of the builder (spec §7); the source throws `Error`
objects with messages, modelled as typed errors. -/
inductive SolendError where
  /-- "Obligation already has max number of positions". -/
  | positionLimitExceeded
  /-- "Unable to fetch reserve data for ..." . -/
  | unableToFetchReserve
  /-- "Unable to parse data of reserve ...". -/
  | unableToParseReserve
  /-- "Unable to find obligation borrow to repay for ...". -/
  | borrowNotFound
  /-- "Not correctly initialized with a withdraw reserve.". -/
  | missingRepayAccounts
  /-- "Wrapped ATA not initialized". -/
  | wrappedAtaMissing
deriving Repr, DecidableEq

/-- Computation `distinctReserveCount` (actions.ts lines 279-292): the sum of the number
of distinct borrow-side addresses (with the target reserve added for a
`borrow` action) and the number of distinct deposit-side addresses (with the
target reserve added for a `deposit` action) — each side deduplicated via a
JS `Set` separately. -/
def distinctReserveCount (action : ActionType) (reserveAddress : Address)
    (depositReserves borrowReserves : List Address) : Nat :=
  ((borrowReserves ++
      if action = ActionType.borrow then [reserveAddress] else []).dedup).length
  + ((depositReserves ++
      if action = ActionType.deposit then [reserveAddress] else []).dedup).length

/-- The count the spec's words describe (for the refinement claim C1 only):
"distinct reserve count across deposits ∪ borrows ∪ the reserve being newly
touched" — a single deduplicated union. -/
def specDistinctReserveCount (reserveAddress : Address)
    (depositReserves borrowReserves : List Address) : Nat :=
  ((depositReserves ++ borrowReserves ++ [reserveAddress]).dedup).length

/-- Static method `SolendActionCore.initialize` (actions.ts lines 232-361), which this model
calls `init`: derive the obligation address, decode the obligation if the
account exists, collect its deposit/borrow reserve lists, enforce the
position-limit check (throwing before any instruction is built), derive the
user token/collateral addresses, and construct the object with all six
instruction buckets empty. -/
def SolendActionCore.init (cfg : Config) (chain : Chain) (pool : PoolType)
    (reserve : ReserveType) (action : ActionType) (amount : Nat)
    (wallet : Address) (customObligationAddress : Option Address := none)
    (hostAta : Option Address := none) (seed : Nat := 0)
    (lookupTableAccount : Option Unit := none)
    (repayReserve : Option ReserveType := none)
    (token2022Mint : Option Address := none) :
    Except SolendError SolendActionCore :=
  let obligationAddress := customObligationAddress.getD (wallet + seed)
  let obligationDetails := chain.obligationAt obligationAddress
  let depositReserves :=
    (obligationDetails.map (fun o => o.deposits.map (·.depositReserve))).getD []
  let borrowReserves :=
    (obligationDetails.map (fun o => o.borrows.map (·.borrowReserve))).getD []
  let count := distinctReserveCount action reserve.address
    depositReserves borrowReserves
  if count > cfg.positionLimit then
    .error .positionLimitExceeded
  else
    .ok
      { programId := 0
        reserve := reserve
        pool := pool
        publicKey := wallet
        obligationAddress := obligationAddress
        obligationAccountInfo := obligationDetails
        userTokenAccountAddress := chain.ataOf reserve.mintAddress wallet
        userCollateralAccountAddress := chain.ataOf reserve.cTokenMint wallet
        seed := seed
        positions := count
        amount := amount
        hostAta := hostAta
        lookupTableAccount := lookupTableAccount
        depositReserves := depositReserves
        borrowReserves := borrowReserves
        userRepayTokenAccountAddress :=
          repayReserve.map (fun r => chain.ataOf r.mintAddress wallet)
        userRepayCollateralAccountAddress :=
          repayReserve.map (fun r => chain.ataOf r.cTokenMint wallet)
        token2022Mint := token2022Mint
        wrappedAta := token2022Mint.map (fun m => chain.ataOf m wallet)
        setupIxs := []
        preIxs := []
        lendingIxs := []
        postIxs := []
        cleanupIxs := []
        postTxnIxs := [] }

/-- Method `addDepositIx` (actions.ts lines 712-751): push exactly one lending
instruction, the max variant when `this.amount.toString() === U64_MAX`, the
literal-amount variant otherwise. -/
def SolendActionCore.addDepositIx (s : SolendActionCore) : SolendActionCore :=
  { s with
    lendingIxs := s.lendingIxs ++
      [if s.amount = U64_MAX then
        Ix.depositMaxReserveLiquidityAndObligationCollateral
          s.userTokenAccountAddress s.userCollateralAccountAddress
          s.reserve.address s.obligationAddress
      else
        Ix.depositReserveLiquidityAndObligationCollateral s.amount
          s.userTokenAccountAddress s.userCollateralAccountAddress
          s.reserve.address s.obligationAddress] }

/-- Method `addWithdrawIx` (actions.ts lines 849-887): push exactly one lending
instruction, `withdrawObligationCollateralAndRedeemReserveLiquidity` with an
explicit `new BN(U64_MAX)` amount when `this.amount.eq(new BN(U64_MAX))`,
otherwise `withdrawExact` with the literal amount. -/
def SolendActionCore.addWithdrawIx (s : SolendActionCore) : SolendActionCore :=
  { s with
    lendingIxs := s.lendingIxs ++
      [if s.amount = U64_MAX then
        Ix.withdrawObligationCollateralAndRedeemReserveLiquidity U64_MAX
          s.userCollateralAccountAddress s.reserve.address s.obligationAddress
      else
        Ix.withdrawExact s.amount s.userCollateralAccountAddress
          s.reserve.address s.obligationAddress] }

/-- Method `addRepayIx` (actions.ts lines 889-915): push exactly one lending
instruction, `repayMaxObligationLiquidityInstruction` when
`this.amount.toString() === U64_MAX`, otherwise
`repayObligationLiquidityInstruction` with the literal amount. -/
def SolendActionCore.addRepayIx (s : SolendActionCore) : SolendActionCore :=
  { s with
    lendingIxs := s.lendingIxs ++
      [if s.amount = U64_MAX then
        Ix.repayMaxObligationLiquidity s.userTokenAccountAddress
          s.reserve.address s.obligationAddress
      else
        Ix.repayObligationLiquidity s.amount s.userTokenAccountAddress
          s.reserve.address s.obligationAddress] }

/-- Classifier: is this lending instruction one of the max-variant encodings
(`depositMax...`, `withdraw...RedeemReserveLiquidity`, `repayMax...`)? -/
def Ix.isMaxVariant : Ix → Bool
  | .depositMaxReserveLiquidityAndObligationCollateral _ _ _ _ => true
  | .withdrawObligationCollateralAndRedeemReserveLiquidity _ _ _ _ => true
  | .repayMaxObligationLiquidity _ _ _ => true
  | _ => false

/-- Classifier: the literal amount carried by a literal-variant lending
instruction (`none` for the max variants and non-lending instructions). -/
def Ix.literalAmount? : Ix → Option Nat
  | .depositReserveLiquidityAndObligationCollateral a _ _ _ _ => some a
  | .withdrawExact a _ _ _ => some a
  | .repayObligationLiquidity a _ _ _ => some a
  | _ => none

/-- Method `addObligationIxs` (actions.ts lines 1243-1269): a no-op when
`this.obligationAccountInfo` is set; otherwise push
`SystemProgram.createAccountWithSeed` (sized to the fixed obligation record,
rent-exempt) and `initObligationInstruction` into `setupIxs`. -/
def SolendActionCore.addObligationIxs (chain : Chain) (s : SolendActionCore) :
    SolendActionCore :=
  match s.obligationAccountInfo with
  | some _ => s
  | none =>
    { s with
      setupIxs := s.setupIxs ++
        [Ix.createAccountWithSeed s.publicKey s.obligationAddress s.publicKey
          chain.rentExemptObligation 1300,
         Ix.initObligation s.obligationAddress s.pool.address s.publicKey] }

/-- The routing condition shared by `addAtaIxs`, `addCAtaIxs` and
`updateWSOLAccount`:
`this.positions === POSITION_LIMIT && this.hostAta && !this.lookupTableAccount`. -/
def SolendActionCore.atPositionLimitWithHostAta (cfg : Config)
    (s : SolendActionCore) : Bool :=
  s.positions = cfg.positionLimit && s.hostAta.isSome &&
    s.lookupTableAccount.isNone

/-- Method `addAtaIxs` (actions.ts lines 1271-1296): only for a non-native mint, and
only when the user token account does not exist, build one
`createAssociatedTokenAccountInstruction` and route it to `preIxs` when
`positions === POSITION_LIMIT && hostAta && !lookupTableAccount`, else to
`setupIxs`. -/
def SolendActionCore.addAtaIxs (cfg : Config) (chain : Chain)
    (s : SolendActionCore) : SolendActionCore :=
  if s.reserve.mintAddress ≠ NATIVE_MINT then
    if chain.accountExists s.userTokenAccountAddress then s
    else
      let createUserTokenAccountIx :=
        Ix.createAta s.publicKey s.userTokenAccountAddress s.publicKey
          s.reserve.mintAddress
      if s.atPositionLimitWithHostAta cfg then
        { s with preIxs := s.preIxs ++ [createUserTokenAccountIx] }
      else
        { s with setupIxs := s.setupIxs ++ [createUserTokenAccountIx] }
  else s

/-- Method `addCAtaIxs` (actions.ts lines 1298-1322): when the user collateral
account does not exist, build one `createAssociatedTokenAccountInstruction`
for the collateral mint and route it with the same condition as `addAtaIxs`. -/
def SolendActionCore.addCAtaIxs (cfg : Config) (chain : Chain)
    (s : SolendActionCore) : SolendActionCore :=
  if chain.accountExists s.userCollateralAccountAddress then s
  else
    let createUserCollateralAccountIx :=
      Ix.createAta s.publicKey s.userCollateralAccountAddress s.publicKey
        s.reserve.cTokenMint
    if s.atPositionLimitWithHostAta cfg then
      { s with preIxs := s.preIxs ++ [createUserCollateralAccountIx] }
    else
      { s with setupIxs := s.setupIxs ++ [createUserCollateralAccountIx] }

/-- Method `addWrapUnwrapLiquidateIxs` (actions.ts line 1044): the method body is
empty — it pushes nothing and changes nothing. -/
def SolendActionCore.addWrapUnwrapLiquidateIxs (s : SolendActionCore) :
    SolendActionCore :=
  s

/-- The `safeRepay` computation of `updateWSOLAccount` (actions.ts lines
1365-1376): BigNumber exact decimal arithmetic
`floor(borrowedAmountWads × cumulativeBorrowRateWads(reserve) /
cumulativeBorrowRateWads(borrow snapshot) / WAD + SOL_PADDING_FOR_INTEREST)`,
modelled as exact rational arithmetic. -/
def safeRepayAmount (borrowedAmountWads snapshotRate currentRate : Nat) : Nat :=
  (Int.floor ((borrowedAmountWads * currentRate : ℚ) / snapshotRate / WAD
      + SOL_PADDING_FOR_INTEREST)).toNat

/-- The instruction-building tail of `updateWSOLAccount` (actions.ts lines
1379-1433), once `safeRepay` is known: build the lamport transfer
(rent-exemption top-up only when the WSOL account does not exist, plus the
funding amount for the sending actions `deposit`/`repay`/`mint`), then a
`syncNative` (account existed, sending action) or an ATA-creation (account
missing), and a close-account instruction for draining actions, routed to
`preIxs`/`postTxnIxs` under the position-limit condition and to
`setupIxs`/`cleanupIxs` otherwise. -/
def SolendActionCore.wsolApplyIxs (cfg : Config) (chain : Chain)
    (action : ActionType) (s : SolendActionCore) (safeRepay : Nat) :
    SolendActionCore :=
  let userWSOLAccountExists := chain.accountExists s.userTokenAccountAddress
  let rentExempt := chain.rentExemptTokenAccount
  let sendAction : Bool := action = ActionType.deposit ∨
    action = ActionType.repay ∨ action = ActionType.mint
  let transferLamportsIx := Ix.transferLamports s.publicKey
    s.userTokenAccountAddress
    ((if userWSOLAccountExists then 0 else rentExempt) +
      (if sendAction then safeRepay else 0))
  let closeWSOLAccountIx := Ix.closeAccount s.userTokenAccountAddress
    s.publicKey s.publicKey
  let preIxs : List Ix :=
    [transferLamportsIx] ++
    (if userWSOLAccountExists then
      if sendAction then [Ix.syncNativeIx s.userTokenAccountAddress] else []
    else
      [Ix.createAta s.publicKey s.userTokenAccountAddress s.publicKey
        NATIVE_MINT])
  let postIxs : List Ix :=
    if userWSOLAccountExists then
      if sendAction then [] else [closeWSOLAccountIx]
    else [closeWSOLAccountIx]
  if s.atPositionLimitWithHostAta cfg then
    { s with preIxs := s.preIxs ++ preIxs,
             postTxnIxs := s.postTxnIxs ++ postIxs }
  else
    { s with setupIxs := s.setupIxs ++ preIxs,
             cleanupIxs := s.cleanupIxs ++ postIxs }

/-- Method `updateWSOLAccount` (actions.ts lines 1324-1434): a no-op unless
the reserve's mint is the native mint.  For a full-balance repay
(`obligationAccountInfo` set, `action === "repay"`,
`amount.eq(new BN(U64_MAX))`) re-derive `safeRepay` from the freshly parsed
reserve and the matching obligation borrow (failing on a missing/unparsable
reserve account or a missing borrow); otherwise `safeRepay` is the action
amount.  Then emit the funding/sync/close instructions via `wsolApplyIxs`. -/
def SolendActionCore.updateWSOLAccount (cfg : Config) (chain : Chain)
    (action : ActionType) (s : SolendActionCore) :
    Except SolendError SolendActionCore :=
  if s.reserve.mintAddress ≠ NATIVE_MINT then .ok s
  else if s.obligationAccountInfo.isSome ∧ action = ActionType.repay ∧
      s.amount = U64_MAX then
    match chain.reserveAccount s.reserve.address with
    | none => .error .unableToFetchReserve
    | some none => .error .unableToParseReserve
    | some (some parsedData) =>
      match (s.obligationAccountInfo.getD ⟨0, [], []⟩).borrows.find?
          (fun b => b.borrowReserve = s.reserve.address) with
      | none => .error .borrowNotFound
      | some borrow =>
        .ok (s.wsolApplyIxs cfg chain action
          (safeRepayAmount borrow.borrowedAmountWads
            borrow.cumulativeBorrowRateWads parsedData.cumulativeBorrowRateWads))
  else
    .ok (s.wsolApplyIxs cfg chain action s.amount)

/-! Oracle reader, from `src/unnamed/part_001`. -/

/-- Constant `SWITCHBOARD_V1_ADDRESS` as a distinguished model address. -/
def SWITCHBOARD_V1_ADDRESS : Address := 2

/-- Constant `SWITCHBOARD_V2_ADDRESS` as a distinguished model address. -/
def SWITCHBOARD_V2_ADDRESS : Address := 3

/-- Fields of `reserve.liquidityToken` read by the oracle reader. -/
structure LiquidityTokenConfig where
  symbol : Nat
  mint : Address
  decimals : Nat
deriving Repr, DecidableEq

/-- The fields of `MarketConfigReserve` that `getTokenOracleData` reads. -/
structure MarketConfigReserve where
  address : Address
  switchboardOracle : Address
  liquidityToken : LiquidityTokenConfig
deriving Repr, DecidableEq

/-- Record `TokenOracleData` (part_001 lines 13-19). -/
structure TokenOracleData where
  symbol : Nat
  reserveAddress : Address
  mintAddress : Address
  decimals : ℚ
  price : ℚ
deriving Repr, DecidableEq

/-- The chain/decoder surface that `getTokenOracleData` consumes: the owner of
the oracle account (`none` when `getAccountInfo` returns null) and the two
external switchboard decoders (`AggregatorState.decodeDelimited` /
`decodeLatestAggregatorValue`), which may fail to yield a value. -/
structure OracleEnv where
  ownerOf : Address → Option Address
  v1Decode : Address → Option ℚ
  v2Decode : Address → Option ℚ

/-- The `priceData` resolution of `getTokenOracleData` (part_001 lines 25-46):
switchboard-v1 owners go through the v1 decoder, v2 owners through the v2
decoder, and any other (or missing) owner logs an error and leaves
`priceData` undefined. -/
def oraclePriceData (env : OracleEnv) (reserve : MarketConfigReserve) :
    Option ℚ :=
  match env.ownerOf reserve.switchboardOracle with
  | some owner =>
    if owner = SWITCHBOARD_V1_ADDRESS then env.v1Decode reserve.switchboardOracle
    else if owner = SWITCHBOARD_V2_ADDRESS then
      env.v2Decode reserve.switchboardOracle
    else none
  | none => none

/-- Can the oracle set be resolved to a usable price?  Mirrors the JS
falsiness test `if (!priceData)`: an undefined result or a zero value both
count as unresolved. -/
def oracleResolvable (env : OracleEnv) (reserve : MarketConfigReserve) : Bool :=
  match oraclePriceData env reserve with
  | some p => p ≠ 0
  | none => false

/-- Function `getTokenOracleData` (part_001 lines 21-62): resolve the price through the
switchboard decoders; on failure (`if (!priceData)`) log and set
`priceData = 0`; always return a `TokenOracleData` record. -/
def getTokenOracleData (env : OracleEnv) (reserve : MarketConfigReserve) :
    TokenOracleData :=
  let priceData := oraclePriceData env reserve
  let priceData : ℚ := match priceData with
    | some p => p
    | none => 0
  { symbol := reserve.liquidityToken.symbol
    reserveAddress := reserve.address
    mintAddress := reserve.liquidityToken.mint
    decimals := (10 : ℚ) ^ reserve.liquidityToken.decimals
    price := priceData }

/-- Function `getTokensOracleData` (part_001 lines 64-72): one record per reserve of
the market. -/
def getTokensOracleData (env : OracleEnv)
    (reserves : List MarketConfigReserve) : List TokenOracleData :=
  reserves.map (getTokenOracleData env)

/-! Liquidator main loop, from `src/unnamed/part_000`. -/

/-- Errors that the liquidator's per-obligation `try` block can catch
(spec §7 taxonomy). -/
inductive LiqError where
  | stateReadError
  | oracleResolutionError
  | submissionError
deriving Repr, DecidableEq

/-- A deposit or borrow position as returned by
`calculateRefreshedObligation` (the `Borrow`/deposit entries carrying a
market value, mint and symbol). -/
structure LiqPosition where
  marketValue : ℚ
  mintAddress : Address
  symbol : Nat
deriving Repr, DecidableEq

/-- The result record of `calculateRefreshedObligation`. -/
structure RefreshedObligation where
  borrowedValue : ℚ
  unhealthyBorrowValue : ℚ
  deposits : List LiqPosition
  borrows : List LiqPosition
deriving Repr, DecidableEq

/-- An obligation as returned by `getObligations`/`parseObligation`:
public key plus decoded info. -/
structure ParsedObligation where
  pubkey : Address
  info : Obligation
deriving Repr, DecidableEq

/-- The external collaborators of the liquidator loop.  Modelled from the
spec: `calculateRefreshedObligation` (libs/refreshObligation), `sortBorrows`
and `getWalletTokenData` (libs/utils) and `liquidateAndRedeem`
(libs/actions/liquidateAndRedeem) are not in `src/`; per spec §2/§4.5 the
health calculator recomputes borrowed value and the unhealthy threshold (and
may raise a StateReadError), `sortBorrows` puts the borrow with the greatest
market value first, `getWalletTokenData` returns the wallet balance in base
units (negative on a failed read), and `liquidateAndRedeem` submits the
liquidation (and may raise a SubmissionError). -/
structure LiqEnv where
  calculateRefreshedObligation :
    Obligation → Except LiqError RefreshedObligation
  sortBorrows : List LiqPosition → List LiqPosition
  getWalletTokenData : Address → Except LiqError Int
  liquidateAndRedeem : Int → Nat → Nat → ParsedObligation → Except LiqError Unit
  refetchObligation : Address → Except LiqError (Option ParsedObligation)

/-- The `deposits.forEach` maximum selection (part_000 lines 68-76): keep the
first deposit seen whose market value no later deposit strictly exceeds. -/
def selectMaxDeposit (deposits : List LiqPosition) : Option LiqPosition :=
  deposits.foldl
    (fun selected deposit =>
      match selected with
      | none => some deposit
      | some sel =>
        if sel.marketValue < deposit.marketValue then some deposit
        else selected)
    none

/-- One submitted call to `liquidateAndRedeem` (part_000 lines 117-125),
recording the evaluation that triggered it and the amount passed. -/
structure LiquidationCall where
  obligationPubkey : Address
  evalResult : RefreshedObligation
  repayAmount : Int
  repayMint : Address
  repaySymbol : Nat
  withdrawSymbol : Nat
deriving Repr, DecidableEq

/-- The call record for one `liquidateAndRedeem` invocation: the obligation,
the triggering evaluation, the `balanceBase` passed as the amount, and the
selected borrow/deposit sides. -/
def mkLiquidationCall (obligation : ParsedObligation)
    (r : RefreshedObligation) (balanceBase : Int)
    (selectedBorrow selectedDeposit : LiqPosition) : LiquidationCall :=
  { obligationPubkey := obligation.pubkey
    evalResult := r
    repayAmount := balanceBase
    repayMint := selectedBorrow.mintAddress
    repaySymbol := selectedBorrow.symbol
    withdrawSymbol := selectedDeposit.symbol }

/-- The inner `while (obligation)` loop of `runLiquidator` (part_000 lines
51-134), with explicit fuel for the re-liquidation iteration: refresh the
obligation, stop when healthy, select the highest-market-value borrow and
deposit, stop when either is missing or the wallet balance is zero/negative,
call `liquidateAndRedeem` with `balanceBase`, refetch and repeat.  Returns
the liquidation calls submitted plus the error that ended the loop, if any
(caught by the per-obligation `try`). -/
def liquidateObligationLoop (env : LiqEnv) :
    Nat → Option ParsedObligation → List LiquidationCall × Option LiqError
  | 0, _ => ([], none)
  | _, none => ([], none)
  | fuel + 1, some obligation =>
    match env.calculateRefreshedObligation obligation.info with
    | .error e => ([], some e)
    | .ok r =>
      if r.borrowedValue ≤ r.unhealthyBorrowValue then ([], none)
      else
        match (env.sortBorrows r.borrows).head?, selectMaxDeposit r.deposits with
        | some selectedBorrow, some selectedDeposit =>
          match env.getWalletTokenData selectedBorrow.mintAddress with
          | .error e => ([], some e)
          | .ok balanceBase =>
            if balanceBase = 0 then ([], none)
            else if balanceBase < 0 then ([], none)
            else
              match env.liquidateAndRedeem balanceBase selectedBorrow.symbol
                  selectedDeposit.symbol obligation with
              | .error e =>
                ([mkLiquidationCall obligation r balanceBase selectedBorrow
                    selectedDeposit], some e)
              | .ok _ =>
                match env.refetchObligation obligation.pubkey with
                | .error e =>
                  ([mkLiquidationCall obligation r balanceBase selectedBorrow
                      selectedDeposit], some e)
                | .ok next =>
                  (mkLiquidationCall obligation r balanceBase selectedBorrow
                      selectedDeposit ::
                    (liquidateObligationLoop env fuel next).1,
                   (liquidateObligationLoop env fuel next).2)
        | _, _ => ([], none)

/-- The `for (let obligation of allObligations)` scan with its `try`/`catch`
(part_000 lines 49-142): each obligation's loop runs inside the `try`; an
error is logged and the scan continues with the next obligation. -/
def scanObligations (env : LiqEnv) (fuel : Nat) :
    List ParsedObligation → List (List LiquidationCall × Option LiqError)
  | [] => []
  | obligation :: rest =>
    match liquidateObligationLoop env fuel (some obligation) with
    | (calls, some e) =>
      (calls, some e) :: scanObligations env fuel rest
    | (calls, none) =>
      (calls, none) :: scanObligations env fuel rest

/-! Simulation harness: executing emitted account-creation instructions
against the modelled chain state, for the idempotency property. -/

/-- Effect of executing one instruction on the simulated chain state: an
account-creation instruction makes its target account exist; every other
instruction leaves account existence unchanged. -/
def Chain.exec (chain : Chain) (ix : Ix) : Chain :=
  match ix with
  | .createAta _ ata _ _ =>
    { chain with
      accountExists := fun a => if a = ata then true else chain.accountExists a }
  | .createAtaIdempotent _ ata _ _ =>
    { chain with
      accountExists := fun a => if a = ata then true else chain.accountExists a }
  | .createAccountWithSeed _ newAccountPubkey _ _ _ =>
    { chain with
      accountExists := fun a =>
        if a = newAccountPubkey then true else chain.accountExists a }
  | _ => chain

/-- Execution of a list of emitted instructions on the simulated chain. -/
def Chain.execAll (chain : Chain) (ixs : List Ix) : Chain :=
  ixs.foldl Chain.exec chain

/-- Effect of executing one instruction on the simulated action object: an
`initObligation` instruction for the object's obligation address makes
`obligationAccountInfo` decodable (a fresh empty obligation), as
`connection.getAccountInfo` + `parseObligation` would observe afterwards. -/
def SolendActionCore.simExec (s : SolendActionCore) (ix : Ix) :
    SolendActionCore :=
  match ix with
  | .initObligation obligation _ owner =>
    if obligation = s.obligationAddress then
      { s with obligationAccountInfo := some ⟨owner, [], []⟩ }
    else s
  | _ => s

/-- Execution of a list of emitted instructions on the simulated action
object. -/
def SolendActionCore.simExecAll (s : SolendActionCore) (ixs : List Ix) :
    SolendActionCore :=
  ixs.foldl SolendActionCore.simExec s

/-- The instructions a resolution step emitted: the new suffixes of the
`setupIxs` and `preIxs` buckets of `after` relative to `before`. -/
def SolendActionCore.newIxs (before after : SolendActionCore) : List Ix :=
  after.setupIxs.drop before.setupIxs.length ++
    after.preIxs.drop before.preIxs.length

/-! Concrete fixtures used by counterexamples and witnesses. -/

/-- Fixture: a reserve with structurally distinct addresses derived from `a`
(its liquidity mint `100 + a` is never the native mint). -/
def mkReserve (a : Address) : ReserveType :=
  { address := a
    mintAddress := 100 + a
    cTokenMint := 200 + a
    liquidityAddress := 300 + a
    cTokenLiquidityAddress := 400 + a
    liquidityFeeReceiverAddress := 500 + a
    feeReceiverAddress := 600 + a
    pythOracle := 700 + a
    switchboardOracle := 800 + a
    extraOracle := none }

/-- Fixture: a reserve whose liquidity mint is the native mint. -/
def mkNativeReserve (a : Address) : ReserveType :=
  { mkReserve a with mintAddress := NATIVE_MINT }

/-- Fixture: a pool with no reserves. -/
def poolX : PoolType := ⟨50, 51, 52, []⟩

/-- Fixture: a chain on which no account exists and no obligation decodes. -/
def chainNone : Chain :=
  { accountExists := fun _ => false
    reserveAccount := fun _ => none
    obligationAt := fun _ => none
    rentExemptTokenAccount := 2039280
    rentExemptObligation := 9938880
    ataOf := fun mint owner => 10000 + 7 * mint + 13 * owner }

/-- Fixture obligation for the C1 counterexample: six distinct deposit
reserves and one borrow on a reserve that is also deposited. -/
def oblC1 : Obligation :=
  ⟨99, [⟨11, 10⟩, ⟨12, 10⟩, ⟨13, 10⟩, ⟨14, 10⟩, ⟨15, 10⟩, ⟨16, 10⟩],
   [⟨11, WAD, WAD⟩]⟩

/-- Fixture chain for the C1 counterexample. -/
def chainC1 : Chain := { chainNone with obligationAt := fun _ => some oblC1 }

/-- Fixture: a dummy action-core record (used only as a `getD` default when
extracting a known-successful build result). -/
def dummyAction : SolendActionCore :=
  { programId := 0
    reserve := mkReserve 0
    pool := poolX
    publicKey := 0
    obligationAddress := 0
    obligationAccountInfo := none
    userTokenAccountAddress := 0
    userCollateralAccountAddress := 0
    seed := 0
    positions := 0
    amount := 0
    hostAta := none
    lookupTableAccount := none
    depositReserves := []
    borrowReserves := []
    userRepayTokenAccountAddress := none
    userRepayCollateralAccountAddress := none
    token2022Mint := none
    wrappedAta := none
    setupIxs := []
    preIxs := []
    lendingIxs := []
    postIxs := []
    cleanupIxs := []
    postTxnIxs := [] }

/-- Fixture: the successful build state of the C1 witness (empty obligation,
so the position-limit check passes). -/
def sC1ok : SolendActionCore :=
  (SolendActionCore.init ⟨6⟩ chainNone poolX (mkReserve 11) .repay 5 0 none
      none 0 none none none).toOption.getD dummyAction

/-- Fixture: an action state with the sentinel amount (used by the C3 and C4
witnesses' base states). -/
def sAmtMax : SolendActionCore :=
  { dummyAction with
    reserve := mkReserve 11
    publicKey := 9
    obligationAddress := 77
    userTokenAccountAddress := 41
    userCollateralAccountAddress := 42
    amount := U64_MAX }

/-- Fixture: an action state with a literal amount `5`. -/
def sAmtLit : SolendActionCore := { sAmtMax with amount := 5 }

/-- Fixture: an action state sitting exactly at the position limit `6` with a
host referral ATA and no lookup table (C6 witness). -/
def sAtLimit : SolendActionCore :=
  { sAmtLit with positions := 6, hostAta := some 91, lookupTableAccount := none }

/-- Fixture: borrow position for the liquidator counterexample. -/
def posBorrowX : LiqPosition := ⟨50, 7, 71⟩

/-- Fixture: deposit position for the liquidator counterexample. -/
def posDepositX : LiqPosition := ⟨80, 8, 81⟩

/-- Fixture: an unhealthy evaluation (`borrowedValue 100 > unhealthy 40`). -/
def evalUnhealthy : RefreshedObligation := ⟨100, 40, [posDepositX], [posBorrowX]⟩

/-- Fixture: a healthy evaluation (`borrowedValue 30 ≤ unhealthy 40`). -/
def evalHealthy : RefreshedObligation := ⟨30, 40, [posDepositX], [posBorrowX]⟩

/-- Fixture: a parsed obligation for the liquidator loop fixtures. -/
def pobX : ParsedObligation := ⟨1000, ⟨99, [], []⟩⟩

/-- Fixture environment: one unhealthy evaluation, wallet balance 5, a
successful submission, and no obligation left after the refetch. -/
def envBal5 : LiqEnv :=
  { calculateRefreshedObligation := fun _ => .ok evalUnhealthy
    sortBorrows := fun l => l
    getWalletTokenData := fun _ => .ok 5
    liquidateAndRedeem := fun _ _ _ _ => .ok ()
    refetchObligation := fun _ => .ok none }

/-- Fixture environment: the evaluation is healthy. -/
def envHealthy : LiqEnv :=
  { envBal5 with calculateRefreshedObligation := fun _ => .ok evalHealthy }

/-- Fixture reserve config for the oracle counterexample. -/
def resOrc : MarketConfigReserve := ⟨20, 21, ⟨5, 22, 6⟩⟩

/-- Fixture oracle environment: the oracle account's owner (`77`) is neither
switchboard program, so no price is resolvable. -/
def envOrcBad : OracleEnv :=
  { ownerOf := fun _ => some 77
    v1Decode := fun _ => none
    v2Decode := fun _ => none }

/-- Fixture oracle environment: a switchboard-v2 oracle resolving to price 9. -/
def envOrcOk : OracleEnv :=
  { envOrcBad with
    ownerOf := fun _ => some SWITCHBOARD_V2_ADDRESS
    v2Decode := fun _ => some 9 }

/-- Fixture: a chain on which every account exists. -/
def chainAll : Chain := { chainNone with accountExists := fun _ => true }

/-- Fixture: an action state whose obligation already decodes. -/
def sOblSome : SolendActionCore :=
  { sAtLimit with obligationAccountInfo := some ⟨9, [], []⟩ }

/-- Fixture: the borrow of the C4 witness — `B = 1000·1e18` WAD borrowed at a
snapshot rate `r0 = 1e18`. -/
def bC4 : ObligationBorrow := ⟨11, 1000 * 10 ^ 18, 10 ^ 18⟩

/-- Fixture: an obligation holding only `bC4`. -/
def oC4 : Obligation := ⟨9, [], [bC4]⟩

/-- Fixture: parsed reserve with current cumulative rate `r1 = 1.05e18`. -/
def dC4 : ParsedReserve := ⟨105 * 10 ^ 16⟩

/-- Fixture: a sentinel-amount repay state on the native-mint reserve. -/
def sRepayMax : SolendActionCore :=
  { sAmtMax with
    reserve := mkNativeReserve 11
    obligationAccountInfo := some oC4 }

/-- Fixture: chain for the C4 witness — the WSOL account exists and the
reserve account parses to `dC4`. -/
def chainC4 : Chain :=
  { chainAll with reserveAccount := fun _ => some (some dC4) }

/-! Theorems. -/

/-- The `safeRepay` computation agrees with the closed-form natural-number
division `B * r1 / r0 / WAD + P`: flooring after adding the integer padding
equals flooring first, and the exact rational divisions floor to the nested
natural division. -/
theorem safeRepayAmount_eq (B r0 r1 : Nat) :
    safeRepayAmount B r0 r1 = B * r1 / r0 / WAD + SOL_PADDING_FOR_INTEREST := by
  unfold safeRepayAmount
  rw [div_div, Int.floor_add_nat]
  have h : ((B : ℚ) * r1 / ((r0 : ℚ) * (WAD : ℚ))) =
      (((B * r1 : ℕ) : ℤ) : ℚ) / (((r0 * WAD : ℕ) : ℕ) : ℚ) := by
    push_cast
    ring
  rw [h, Rat.floor_intCast_div_natCast, Nat.div_div_eq_div_mul]
  rw [← Int.natCast_div, ← Nat.cast_add, Int.toNat_natCast]

/-- C10: resolving the `wrapUnwrapLiquidate` support capability (which the
capability table lists for the `liquidate` action) is a no-op in every
state: it emits no instructions and leaves every instruction bucket of the
plan unchanged. -/
theorem C10_wrapUnwrapLiquidate_noop (s : SolendActionCore) :
    SupportType.wrapUnwrapLiquidate ∈ ACTION_SUPPORT_REQUIREMENTS .liquidate ∧
    s.addWrapUnwrapLiquidateIxs = s ∧
    s.addWrapUnwrapLiquidateIxs.setupIxs = s.setupIxs ∧
    s.addWrapUnwrapLiquidateIxs.preIxs = s.preIxs ∧
    s.addWrapUnwrapLiquidateIxs.lendingIxs = s.lendingIxs ∧
    s.addWrapUnwrapLiquidateIxs.postIxs = s.postIxs ∧
    s.addWrapUnwrapLiquidateIxs.cleanupIxs = s.cleanupIxs ∧
    s.addWrapUnwrapLiquidateIxs.postTxnIxs = s.postTxnIxs :=
  ⟨by decide, rfl, rfl, rfl, rfl, rfl, rfl, rfl⟩

/-- C5 counterexample: with the oracle account owned by an unrecognized
program (owner `77`), no price is resolvable, yet the oracle evaluation does
not fail: `getTokensOracleData` returns a complete `TokenOracleData` record
with the substitute price `0` instead of raising an error. -/
theorem C5_counterexample :
    oracleResolvable envOrcBad resOrc = false ∧
    getTokensOracleData envOrcBad [resOrc] =
      [{ symbol := 5, reserveAddress := 20, mintAddress := 22,
         decimals := (10 : ℚ) ^ 6, price := 0 }] :=
  ⟨rfl, rfl⟩

/-- C5 (amended): when a reserve's oracle set cannot be resolved to a price,
the evaluation does not fail; `getTokenOracleData` logs and substitutes the
price `0` in the record it returns. -/
theorem C5_unresolved_price_zero (env : OracleEnv)
    (reserve : MarketConfigReserve)
    (h : oracleResolvable env reserve = false) :
    (getTokenOracleData env reserve).price = 0 := by
  unfold oracleResolvable at h
  unfold getTokenOracleData
  cases hpd : oraclePriceData env reserve with
  | none => simp [hpd]
  | some p =>
    rw [hpd] at h
    simp only [decide_eq_false_iff_not, Decidable.not_not] at h
    simp [hpd, h]

/-- C5 witness: the amended statement evaluated on the unrecognized-owner
fixture. -/
theorem C5_unresolved_price_zero_witness :
    (getTokenOracleData envOrcBad resOrc).price = 0 :=
  C5_unresolved_price_zero envOrcBad resOrc rfl

/-- C3: building a deposit, withdraw or repay action appends exactly one
lending instruction to the `lendingIxs` bucket; the appended instruction is
the max variant exactly when the amount equals the `U64_MAX` sentinel, and
for every other amount it is the literal-amount variant carrying that
amount — these are the only two branches. -/
theorem C3_sentinel_equivalence (s : SolendActionCore) :
    (∃ ix, s.addDepositIx.lendingIxs = s.lendingIxs ++ [ix] ∧
      (ix.isMaxVariant = true ↔ s.amount = U64_MAX) ∧
      (ix.isMaxVariant = false → ix.literalAmount? = some s.amount)) ∧
    (∃ ix, s.addWithdrawIx.lendingIxs = s.lendingIxs ++ [ix] ∧
      (ix.isMaxVariant = true ↔ s.amount = U64_MAX) ∧
      (ix.isMaxVariant = false → ix.literalAmount? = some s.amount)) ∧
    (∃ ix, s.addRepayIx.lendingIxs = s.lendingIxs ++ [ix] ∧
      (ix.isMaxVariant = true ↔ s.amount = U64_MAX) ∧
      (ix.isMaxVariant = false → ix.literalAmount? = some s.amount)) := by
  refine ⟨⟨_, rfl, ?_, ?_⟩, ⟨_, rfl, ?_, ?_⟩, ⟨_, rfl, ?_, ?_⟩⟩ <;>
    by_cases h : s.amount = U64_MAX <;>
    simp [h, Ix.isMaxVariant, Ix.literalAmount?]

/-- C3 witness: on the sentinel-amount fixture the appended repay instruction
is the max variant; on the amount-5 fixture the appended deposit instruction
is the literal variant carrying 5. -/
theorem C3_sentinel_equivalence_witness :
    sAmtMax.addRepayIx.lendingIxs.map Ix.isMaxVariant = [true] ∧
    sAmtLit.addDepositIx.lendingIxs.map Ix.literalAmount? = [some 5] := by
  constructor
  · obtain ⟨ix, h1, h2, h3⟩ := (C3_sentinel_equivalence sAmtMax).2.2
    rw [h1]
    have hmax : ix.isMaxVariant = true := h2.mpr rfl
    simp [hmax, sAmtMax, sAmtLit, dummyAction]
  · obtain ⟨ix, h1, h2, h3⟩ := (C3_sentinel_equivalence sAmtLit).1
    rw [h1]
    have hlit : ix.isMaxVariant = false := by
      cases hb : ix.isMaxVariant
      · rfl
      · exact absurd (h2.mp hb) (by decide)
    simp [h3 hlit, sAmtMax, sAmtLit, dummyAction]

/-- C1 counterexample: an obligation with six distinct deposit reserves and a
borrow on one of those same reserves has only six distinct reserves across
deposits ∪ borrows ∪ the touched reserve, not exceeding the limit 6, yet
`initialize` fails the position-limit check (the source counts the two sides
separately and sums them to 7). -/
theorem C1_counterexample :
    specDistinctReserveCount (mkReserve 11).address
        (oblC1.deposits.map (·.depositReserve))
        (oblC1.borrows.map (·.borrowReserve)) ≤ 6 ∧
    SolendActionCore.init ⟨6⟩ chainC1 poolX (mkReserve 11) .repay 5 0 none
        none 0 none none none = .error .positionLimitExceeded :=
  ⟨by decide, rfl⟩

/-- C1 (amended): `initialize` fails — before any instruction is built — iff
the sum of the distinct borrow-side reserves (target reserve included for a
`borrow` action) and the distinct deposit-side reserves (target included for
a `deposit` action) exceeds the position limit; reserves present on both
sides are counted twice, and the target reserve is not counted for the other
action types.  On success every instruction bucket is empty. -/
theorem C1_position_limit_check (cfg : Config) (chain : Chain)
    (pool : PoolType) (reserve : ReserveType) (action : ActionType)
    (amount : Nat) (wallet : Address) (coa hA : Option Address) (seed : Nat)
    (lta : Option Unit) (rr : Option ReserveType) (t22 : Option Address) :
    (SolendActionCore.init cfg chain pool reserve action amount wallet coa hA
        seed lta rr t22 = .error .positionLimitExceeded ↔
      cfg.positionLimit <
        distinctReserveCount action reserve.address
          (((chain.obligationAt (coa.getD (wallet + seed))).map
            (fun o => o.deposits.map (·.depositReserve))).getD [])
          (((chain.obligationAt (coa.getD (wallet + seed))).map
            (fun o => o.borrows.map (·.borrowReserve))).getD [])) ∧
    (∀ s, SolendActionCore.init cfg chain pool reserve action amount wallet
        coa hA seed lta rr t22 = .ok s →
      s.setupIxs = [] ∧ s.preIxs = [] ∧ s.lendingIxs = [] ∧ s.postIxs = [] ∧
        s.cleanupIxs = [] ∧ s.postTxnIxs = []) := by
  constructor
  · by_cases h : cfg.positionLimit <
        distinctReserveCount action reserve.address
          (((chain.obligationAt (coa.getD (wallet + seed))).map
            (fun o => o.deposits.map (·.depositReserve))).getD [])
          (((chain.obligationAt (coa.getD (wallet + seed))).map
            (fun o => o.borrows.map (·.borrowReserve))).getD []) <;>
      simp [SolendActionCore.init, h]
  · intro s hs
    by_cases h : cfg.positionLimit <
        distinctReserveCount action reserve.address
          (((chain.obligationAt (coa.getD (wallet + seed))).map
            (fun o => o.deposits.map (·.depositReserve))).getD [])
          (((chain.obligationAt (coa.getD (wallet + seed))).map
            (fun o => o.borrows.map (·.borrowReserve))).getD []) <;>
      simp [SolendActionCore.init, h] at hs
    subst hs
    exact ⟨rfl, rfl, rfl, rfl, rfl, rfl⟩

/-- C1 witness: on an empty obligation the check passes and the freshly built
state has all six buckets empty. -/
theorem C1_position_limit_check_witness :
    sC1ok.setupIxs = [] ∧ sC1ok.preIxs = [] ∧ sC1ok.lendingIxs = [] ∧
    sC1ok.postIxs = [] ∧ sC1ok.cleanupIxs = [] ∧ sC1ok.postTxnIxs = [] :=
  (C1_position_limit_check ⟨6⟩ chainNone poolX (mkReserve 11) .repay 5 0 none
    none 0 none none none).2 sC1ok rfl

/-- The routing condition as a proposition: positions exactly at the limit, a
host referral account set, and no address lookup table supplied. -/
theorem atPositionLimit_iff (cfg : Config) (s : SolendActionCore) :
    s.atPositionLimitWithHostAta cfg = true ↔
      (s.positions = cfg.positionLimit ∧ s.hostAta.isSome = true ∧
        s.lookupTableAccount = none) := by
  simp [SolendActionCore.atPositionLimitWithHostAta,
    Option.isNone_iff_eq_none, and_assoc]

/-- Routing of the creation instruction emitted by `addAtaIxs`. -/
theorem addAtaIxs_routing (cfg : Config) (chain : Chain)
    (s : SolendActionCore) (ix : Ix)
    (h : (s.addAtaIxs cfg chain).preIxs = s.preIxs ++ [ix] ∨
         (s.addAtaIxs cfg chain).setupIxs = s.setupIxs ++ [ix]) :
    (((s.addAtaIxs cfg chain).preIxs = s.preIxs ++ [ix]) ↔
      (s.positions = cfg.positionLimit ∧ s.hostAta.isSome = true ∧
        s.lookupTableAccount = none)) ∧
    (((s.addAtaIxs cfg chain).setupIxs = s.setupIxs ++ [ix]) ↔
      ¬(s.positions = cfg.positionLimit ∧ s.hostAta.isSome = true ∧
        s.lookupTableAccount = none)) := by
  by_cases hmint : s.reserve.mintAddress = NATIVE_MINT
  · simp [SolendActionCore.addAtaIxs, hmint] at h
  · by_cases hex : chain.accountExists s.userTokenAccountAddress = true
    · simp [SolendActionCore.addAtaIxs, hmint, hex] at h
    · by_cases hcond : s.atPositionLimitWithHostAta cfg = true
      · have htriple := (atPositionLimit_iff cfg s).mp hcond
        obtain ⟨h1, h2, h3⟩ := htriple
        simp only [SolendActionCore.addAtaIxs, hmint, hex, hcond] at h ⊢
        simp_all
      · have htriple : ¬(s.positions = cfg.positionLimit ∧
            s.hostAta.isSome = true ∧ s.lookupTableAccount = none) :=
          fun ht => hcond ((atPositionLimit_iff cfg s).mpr ht)
        simp only [SolendActionCore.addAtaIxs, hmint, hex, hcond] at h ⊢
        simp_all

/-- Routing of the creation instruction emitted by `addCAtaIxs`. -/
theorem addCAtaIxs_routing (cfg : Config) (chain : Chain)
    (s : SolendActionCore) (ix : Ix)
    (h : (s.addCAtaIxs cfg chain).preIxs = s.preIxs ++ [ix] ∨
         (s.addCAtaIxs cfg chain).setupIxs = s.setupIxs ++ [ix]) :
    (((s.addCAtaIxs cfg chain).preIxs = s.preIxs ++ [ix]) ↔
      (s.positions = cfg.positionLimit ∧ s.hostAta.isSome = true ∧
        s.lookupTableAccount = none)) ∧
    (((s.addCAtaIxs cfg chain).setupIxs = s.setupIxs ++ [ix]) ↔
      ¬(s.positions = cfg.positionLimit ∧ s.hostAta.isSome = true ∧
        s.lookupTableAccount = none)) := by
  by_cases hex : chain.accountExists s.userCollateralAccountAddress = true
  · simp [SolendActionCore.addCAtaIxs, hex] at h
  · by_cases hcond : s.atPositionLimitWithHostAta cfg = true
    · have htriple := (atPositionLimit_iff cfg s).mp hcond
      obtain ⟨h1, h2, h3⟩ := htriple
      simp only [SolendActionCore.addCAtaIxs, hex, hcond] at h ⊢
      simp_all
    · have htriple : ¬(s.positions = cfg.positionLimit ∧
          s.hostAta.isSome = true ∧ s.lookupTableAccount = none) :=
        fun ht => hcond ((atPositionLimit_iff cfg s).mpr ht)
      simp only [SolendActionCore.addCAtaIxs, hex, hcond] at h ⊢
      simp_all

/-- C6: whenever `addAtaIxs` or `addCAtaIxs` emits an associated-token-account
creation instruction, it is routed to the `pre` bucket iff the obligation's
position count equals the position limit AND a host referral account is set
AND no address lookup table is supplied; under every other combination of
those three conditions it is routed to the `setup` bucket. -/
theorem C6_ata_creation_routing (cfg : Config) (chain : Chain)
    (s : SolendActionCore) :
    (∀ ix, ((s.addAtaIxs cfg chain).preIxs = s.preIxs ++ [ix] ∨
        (s.addAtaIxs cfg chain).setupIxs = s.setupIxs ++ [ix]) →
      (((s.addAtaIxs cfg chain).preIxs = s.preIxs ++ [ix]) ↔
        (s.positions = cfg.positionLimit ∧ s.hostAta.isSome = true ∧
          s.lookupTableAccount = none)) ∧
      (((s.addAtaIxs cfg chain).setupIxs = s.setupIxs ++ [ix]) ↔
        ¬(s.positions = cfg.positionLimit ∧ s.hostAta.isSome = true ∧
          s.lookupTableAccount = none))) ∧
    (∀ ix, ((s.addCAtaIxs cfg chain).preIxs = s.preIxs ++ [ix] ∨
        (s.addCAtaIxs cfg chain).setupIxs = s.setupIxs ++ [ix]) →
      (((s.addCAtaIxs cfg chain).preIxs = s.preIxs ++ [ix]) ↔
        (s.positions = cfg.positionLimit ∧ s.hostAta.isSome = true ∧
          s.lookupTableAccount = none)) ∧
      (((s.addCAtaIxs cfg chain).setupIxs = s.setupIxs ++ [ix]) ↔
        ¬(s.positions = cfg.positionLimit ∧ s.hostAta.isSome = true ∧
          s.lookupTableAccount = none))) :=
  ⟨fun ix h => addAtaIxs_routing cfg chain s ix h,
   fun ix h => addCAtaIxs_routing cfg chain s ix h⟩

/-- C6 witness: on the at-limit fixture (positions = limit = 6, host ATA set,
no lookup table, collateral account missing) the emitted collateral-ATA
creation instruction lands in `pre`, and the iff of the theorem confirms the
triple condition. -/
theorem C6_ata_creation_routing_witness :
    (sAtLimit.addCAtaIxs ⟨6⟩ chainNone).preIxs =
      sAtLimit.preIxs ++
        [Ix.createAta sAtLimit.publicKey sAtLimit.userCollateralAccountAddress
          sAtLimit.publicKey sAtLimit.reserve.cTokenMint] :=
  ((C6_ata_creation_routing ⟨6⟩ chainNone sAtLimit).2
    (Ix.createAta sAtLimit.publicKey sAtLimit.userCollateralAccountAddress
      sAtLimit.publicKey sAtLimit.reserve.cTokenMint)
    (Or.inl (by decide))).1.mpr (by decide)

/-- Resolving `ata` against a state where the user token account exists emits
nothing. -/
theorem addAtaIxs_noop_of_exists (cfg : Config) (chain : Chain)
    (s : SolendActionCore)
    (h : chain.accountExists s.userTokenAccountAddress = true) :
    s.addAtaIxs cfg chain = s := by
  by_cases hmint : s.reserve.mintAddress = NATIVE_MINT <;>
    simp [SolendActionCore.addAtaIxs, hmint, h]

/-- Resolving `cAta` against a state where the user collateral account exists
emits nothing. -/
theorem addCAtaIxs_noop_of_exists (cfg : Config) (chain : Chain)
    (s : SolendActionCore)
    (h : chain.accountExists s.userCollateralAccountAddress = true) :
    s.addCAtaIxs cfg chain = s := by
  simp [SolendActionCore.addCAtaIxs, h]

/-- Resolving `createObligation` when the obligation already decodes emits
nothing. -/
theorem addObligationIxs_noop_of_some (chain : Chain) (s : SolendActionCore)
    (h : s.obligationAccountInfo.isSome = true) :
    s.addObligationIxs chain = s := by
  unfold SolendActionCore.addObligationIxs
  cases hs : s.obligationAccountInfo with
  | none => rw [hs] at h; simp at h
  | some o => rfl

/-- Second resolution of `ata` after executing the first resolution's emitted
instructions on the simulated chain is a no-op. -/
theorem addAtaIxs_idem (cfg : Config) (chain : Chain) (s : SolendActionCore) :
    (s.addAtaIxs cfg chain).addAtaIxs cfg
      (chain.execAll (s.newIxs (s.addAtaIxs cfg chain))) =
    s.addAtaIxs cfg chain := by
  by_cases hmint : s.reserve.mintAddress = NATIVE_MINT
  · simp [SolendActionCore.addAtaIxs, hmint]
  · by_cases hex : chain.accountExists s.userTokenAccountAddress = true
    · rw [addAtaIxs_noop_of_exists cfg chain s hex]
      have hnew : s.newIxs s = [] := by
        simp [SolendActionCore.newIxs]
      rw [hnew]
      exact addAtaIxs_noop_of_exists cfg chain s hex
    · by_cases hcond : s.atPositionLimitWithHostAta cfg = true <;>
      · apply addAtaIxs_noop_of_exists
        simp [SolendActionCore.addAtaIxs, hmint, hex, hcond,
          SolendActionCore.newIxs, Chain.execAll, Chain.exec]

/-- Second resolution of `cAta` after executing the first resolution's
emitted instructions on the simulated chain is a no-op. -/
theorem addCAtaIxs_idem (cfg : Config) (chain : Chain) (s : SolendActionCore) :
    (s.addCAtaIxs cfg chain).addCAtaIxs cfg
      (chain.execAll (s.newIxs (s.addCAtaIxs cfg chain))) =
    s.addCAtaIxs cfg chain := by
  by_cases hex : chain.accountExists s.userCollateralAccountAddress = true
  · rw [addCAtaIxs_noop_of_exists cfg chain s hex]
    have hnew : s.newIxs s = [] := by
      simp [SolendActionCore.newIxs]
    rw [hnew]
    exact addCAtaIxs_noop_of_exists cfg chain s hex
  · by_cases hcond : s.atPositionLimitWithHostAta cfg = true <;>
    · apply addCAtaIxs_noop_of_exists
      simp [SolendActionCore.addCAtaIxs, hex, hcond,
        SolendActionCore.newIxs, Chain.execAll, Chain.exec]

/-- Second resolution of `createObligation` after executing the first
resolution's emitted instructions on the simulated action object is a
no-op. -/
theorem addObligationIxs_idem (chain : Chain) (s : SolendActionCore) :
    ((s.addObligationIxs chain).simExecAll
        (s.newIxs (s.addObligationIxs chain))).addObligationIxs chain =
    (s.addObligationIxs chain).simExecAll
      (s.newIxs (s.addObligationIxs chain)) := by
  cases hs : s.obligationAccountInfo with
  | some o =>
    have h1 : s.addObligationIxs chain = s := by
      simp [SolendActionCore.addObligationIxs, hs]
    rw [h1]
    have hnew : s.newIxs s = [] := by
      simp [SolendActionCore.newIxs]
    rw [hnew]
    exact h1
  | none =>
    apply addObligationIxs_noop_of_some
    simp [SolendActionCore.addObligationIxs, hs, SolendActionCore.newIxs,
      SolendActionCore.simExecAll, SolendActionCore.simExec]

/-- C9: resolving `ata`, `cAta` or `createObligation` against a state in
which the target account already exists emits zero instructions (the
resolution is the identity on the plan); consequently resolving the same
capability twice in a row — the second time against the simulated state on
which the first resolution's emitted instructions have executed — leaves the
plan of the first resolution unchanged, so no duplicate creation instruction
is ever emitted. -/
theorem C9_idempotent_account_creation (cfg : Config) (chain : Chain)
    (s : SolendActionCore) :
    (chain.accountExists s.userTokenAccountAddress = true →
      s.addAtaIxs cfg chain = s) ∧
    (chain.accountExists s.userCollateralAccountAddress = true →
      s.addCAtaIxs cfg chain = s) ∧
    (s.obligationAccountInfo.isSome = true →
      s.addObligationIxs chain = s) ∧
    ((s.addAtaIxs cfg chain).addAtaIxs cfg
        (chain.execAll (s.newIxs (s.addAtaIxs cfg chain))) =
      s.addAtaIxs cfg chain) ∧
    ((s.addCAtaIxs cfg chain).addCAtaIxs cfg
        (chain.execAll (s.newIxs (s.addCAtaIxs cfg chain))) =
      s.addCAtaIxs cfg chain) ∧
    (((s.addObligationIxs chain).simExecAll
          (s.newIxs (s.addObligationIxs chain))).addObligationIxs chain =
      (s.addObligationIxs chain).simExecAll
        (s.newIxs (s.addObligationIxs chain))) :=
  ⟨addAtaIxs_noop_of_exists cfg chain s,
   addCAtaIxs_noop_of_exists cfg chain s,
   addObligationIxs_noop_of_some chain s,
   addAtaIxs_idem cfg chain s,
   addCAtaIxs_idem cfg chain s,
   addObligationIxs_idem chain s⟩

/-- C9 witness: on a chain where every account already exists and with an
obligation decoded, each of the three resolutions leaves the state fixture
unchanged. -/
theorem C9_idempotent_account_creation_witness :
    sAtLimit.addAtaIxs ⟨6⟩ chainAll = sAtLimit ∧
    sAtLimit.addCAtaIxs ⟨6⟩ chainAll = sAtLimit ∧
    sOblSome.addObligationIxs chainAll = sOblSome :=
  ⟨(C9_idempotent_account_creation ⟨6⟩ chainAll sAtLimit).1 rfl,
   (C9_idempotent_account_creation ⟨6⟩ chainAll sAtLimit).2.1 rfl,
   (C9_idempotent_account_creation ⟨6⟩ chainAll sOblSome).2.2.1 rfl⟩

/-- C4: for a full-balance repay on the native-mint reserve (sentinel amount,
obligation present, a borrow on this reserve, reserve account readable), the
funded repay amount in the emitted lamport transfer equals
`floor(B × r1 / r0 / WAD) + P` with `P = 1_000_000` — stated with the
position-limit routing condition false and the WSOL account already existing,
so no rent top-up is added and the instructions go to `setup`. -/
theorem C4_full_repay_sizing (cfg : Config) (chain : Chain)
    (s : SolendActionCore) (o : Obligation) (b : ObligationBorrow)
    (d : ParsedReserve)
    (hmint : s.reserve.mintAddress = NATIVE_MINT)
    (hobl : s.obligationAccountInfo = some o)
    (hamt : s.amount = U64_MAX)
    (hres : chain.reserveAccount s.reserve.address = some (some d))
    (hfind : o.borrows.find?
      (fun br => br.borrowReserve = s.reserve.address) = some b)
    (hroute : s.atPositionLimitWithHostAta cfg = false)
    (hexists : chain.accountExists s.userTokenAccountAddress = true) :
    s.updateWSOLAccount cfg chain .repay =
      .ok { s with
        setupIxs := s.setupIxs ++
          [Ix.transferLamports s.publicKey s.userTokenAccountAddress
            (b.borrowedAmountWads * d.cumulativeBorrowRateWads /
              b.cumulativeBorrowRateWads / WAD + SOL_PADDING_FOR_INTEREST),
           Ix.syncNativeIx s.userTokenAccountAddress],
        cleanupIxs := s.cleanupIxs } := by
  unfold SolendActionCore.updateWSOLAccount
  rw [if_neg (by simp [hmint])]
  rw [if_pos ⟨by rw [hobl]; rfl, rfl, hamt⟩]
  rw [hres]
  simp only [hobl, Option.getD_some]
  rw [hfind]
  unfold SolendActionCore.wsolApplyIxs
  simp [hexists, hroute, hobl, safeRepayAmount_eq]

/-- C4 witness: with `B = 1000·1e18`, `r0 = 1e18`, `r1 = 1.05e18` the funded
amount is `1050 + 1_000_000`. -/
theorem C4_full_repay_sizing_witness :
    sRepayMax.updateWSOLAccount ⟨6⟩ chainC4 .repay =
      .ok { sRepayMax with
        setupIxs := sRepayMax.setupIxs ++
          [Ix.transferLamports sRepayMax.publicKey
            sRepayMax.userTokenAccountAddress (1050 + 1000000),
           Ix.syncNativeIx sRepayMax.userTokenAccountAddress],
        cleanupIxs := sRepayMax.cleanupIxs } := by
  have h := C4_full_repay_sizing ⟨6⟩ chainC4 sRepayMax oC4 bC4 dC4 rfl rfl rfl
    rfl (by decide) rfl rfl
  rw [h]
  rfl

/-- Invariant of every call submitted by the per-obligation loop: the
evaluation that triggered it was unhealthy, and the amount passed is the
wallet balance returned for the selected borrow's mint, which is positive. -/
theorem liquidateObligationLoop_calls (env : LiqEnv) (fuel : Nat)
    (ob : Option ParsedObligation) (call : LiquidationCall)
    (h : call ∈ (liquidateObligationLoop env fuel ob).1) :
    call.evalResult.unhealthyBorrowValue < call.evalResult.borrowedValue ∧
    env.getWalletTokenData call.repayMint = .ok call.repayAmount ∧
    0 < call.repayAmount := by
  induction fuel generalizing ob with
  | zero => simp [liquidateObligationLoop] at h
  | succ n ih =>
    cases ob with
    | none => simp [liquidateObligationLoop] at h
    | some obligation =>
      rw [liquidateObligationLoop] at h
      split at h
      · simp at h
      · rename_i r hr
        split at h
        · simp at h
        · rename_i hhealthy
          split at h
          · rename_i sb sd hsb hsd
            split at h
            · simp at h
            · rename_i bal hbal
              split at h
              · simp at h
              · split at h
                · simp at h
                · rename_i hb0 hblt
                  split at h
                  · simp at h
                    subst h
                    refine ⟨not_le.mp hhealthy, hbal, ?_⟩
                    show (0 : Int) < bal
                    omega
                  · split at h
                    · simp at h
                      subst h
                      refine ⟨not_le.mp hhealthy, hbal, ?_⟩
                      show (0 : Int) < bal
                      omega
                    · rename_i next hnext
                      simp only [List.mem_cons] at h
                      rcases h with h | h
                      · subst h
                        refine ⟨not_le.mp hhealthy, hbal, ?_⟩
                        show (0 : Int) < bal
                        omega
                      · exact ih next h
          · simp at h

/-- C7: on every pass of the per-obligation loop, an evaluation with
`borrowedValue ≤ unhealthyBorrowValue` stops the obligation with no action
(no submission, no error), and every liquidation the loop ever submits was
triggered by an evaluation with `borrowedValue > unhealthyBorrowValue`. -/
theorem C7_healthy_obligation_stops :
    (∀ (env : LiqEnv) (fuel : Nat) (ob : Option ParsedObligation)
        (call : LiquidationCall),
      call ∈ (liquidateObligationLoop env fuel ob).1 →
        call.evalResult.unhealthyBorrowValue < call.evalResult.borrowedValue) ∧
    (∀ (env : LiqEnv) (fuel : Nat) (obligation : ParsedObligation)
        (r : RefreshedObligation),
      env.calculateRefreshedObligation obligation.info = .ok r →
      r.borrowedValue ≤ r.unhealthyBorrowValue →
      liquidateObligationLoop env (fuel + 1) (some obligation) = ([], none)) := by
  constructor
  · intro env fuel ob call h
    exact (liquidateObligationLoop_calls env fuel ob call h).1
  · intro env fuel obligation r hr hh
    rw [liquidateObligationLoop, hr]
    simp [hh]

/-- C7 witness: on the healthy fixture the loop takes no action and submits
nothing. -/
theorem C7_healthy_obligation_stops_witness :
    liquidateObligationLoop envHealthy 1 (some pobX) = ([], none) :=
  C7_healthy_obligation_stops.2 envHealthy 0 pobX evalHealthy rfl (by decide)

/-- C2 counterexample: on the fixture where the liquidator's wallet holds 5
base units of the repay asset, the amount passed to `liquidateAndRedeem` is
the literal wallet balance 5, not the u64-max sentinel. -/
theorem C2_counterexample :
    (liquidateObligationLoop envBal5 2 (some pobX)).1.map
        LiquidationCall.repayAmount = [(5 : Int)] ∧
    (5 : Int) ≠ ((U64_MAX : Nat) : Int) :=
  ⟨rfl, by decide⟩

/-- C2 (amended): the repay amount passed to every `liquidateAndRedeem`
call is exactly the wallet balance that `getWalletTokenData` returned for the
selected borrow's mint (checked positive first) — not the u64-max sentinel;
the source merely relies on the program capping the effective liquidation. -/
theorem C2_repay_amount_is_wallet_balance (env : LiqEnv) (fuel : Nat)
    (ob : Option ParsedObligation) (call : LiquidationCall)
    (h : call ∈ (liquidateObligationLoop env fuel ob).1) :
    env.getWalletTokenData call.repayMint = .ok call.repayAmount ∧
    0 < call.repayAmount :=
  ⟨(liquidateObligationLoop_calls env fuel ob call h).2.1,
   (liquidateObligationLoop_calls env fuel ob call h).2.2⟩

/-- C2 witness: the single call of the balance-5 fixture carries amount 5,
the wallet balance of its repay mint. -/
theorem C2_repay_amount_is_wallet_balance_witness :
    envBal5.getWalletTokenData
        (mkLiquidationCall pobX evalUnhealthy 5 posBorrowX posDepositX).repayMint =
      .ok (mkLiquidationCall pobX evalUnhealthy 5 posBorrowX
        posDepositX).repayAmount ∧
    0 < (mkLiquidationCall pobX evalUnhealthy 5 posBorrowX
      posDepositX).repayAmount :=
  C2_repay_amount_is_wallet_balance envBal5 2 (some pobX)
    (mkLiquidationCall pobX evalUnhealthy 5 posBorrowX posDepositX) (by decide)

/-- C8: the per-obligation `try`/`catch` isolates errors — the scan processes
every obligation with its own loop result regardless of the errors earlier
obligations produced: it equals the independent per-obligation map, its
length always equals the number of obligations, and it distributes over
concatenation (so the obligations after a failing one are still evaluated). -/
theorem C8_obligation_error_isolation (env : LiqEnv) (fuel : Nat) :
    (∀ obs : List ParsedObligation,
      scanObligations env fuel obs =
        obs.map (fun ob => liquidateObligationLoop env fuel (some ob))) ∧
    (∀ obs : List ParsedObligation,
      (scanObligations env fuel obs).length = obs.length) ∧
    (∀ l₁ l₂ : List ParsedObligation,
      scanObligations env fuel (l₁ ++ l₂) =
        scanObligations env fuel l₁ ++ scanObligations env fuel l₂) := by
  have hmap : ∀ obs : List ParsedObligation,
      scanObligations env fuel obs =
        obs.map (fun ob => liquidateObligationLoop env fuel (some ob)) := by
    intro obs
    induction obs with
    | nil => rfl
    | cons ob rest ih =>
      rw [scanObligations]
      rcases hl : liquidateObligationLoop env fuel (some ob) with ⟨calls, err⟩
      cases err <;> simp [hl, ih]
  refine ⟨hmap, fun obs => ?_, fun l₁ l₂ => ?_⟩
  · rw [hmap]
    simp
  · rw [hmap, hmap, hmap]
    simp

end SaveFinance
